import Mathlib

/-
Verification development for the WhatsApp quiz engine (src/app.py).

The embedding below follows the Python source closely:
- Python string primitives (`str.strip`, `str.lower`, `str.upper`) are
  modelled over their ASCII behaviour (`pyStrip`, `pyLower`, `pyUpper`);
  all inputs appearing in the claims are ASCII.
- `json.load` output is modelled by the `JValue` inductive; dictionary
  `get` is first-match lookup over the field list.
- `load_questions` (src/app.py lines 34-86) is modelled field check by
  field check, with the exact error strings and check order of the source.
- `normalize_answer` (lines 115-135) is modelled on the character list of
  the stripped, lowercased input.
- The `/whatsapp` handler (lines 152-239) is modelled as a pure step
  function from a session store and an inbound event to the new store and
  an abstract reply; each `twiml(...)`/interactive return site of the
  source corresponds to one `Reply` constructor carrying the data the
  source embeds in the outgoing message.  State updates are identical in
  the interactive and the TwiML branch of the source, so the model does
  not branch on the channel.
- Python `round` (banker's rounding) is modelled by round-half-to-even on
  exact rationals.
-/

/-! ## Python string primitives (ASCII fragment) -/

/-- ASCII `str.lower` on a single character. -/
def pyLowerChar (c : Char) : Char :=
  if 'A' ≤ c ∧ c ≤ 'Z' then Char.ofNat (c.toNat + 32) else c

/-- ASCII `str.upper` on a single character. -/
def pyUpperChar (c : Char) : Char :=
  if 'a' ≤ c ∧ c ≤ 'z' then Char.ofNat (c.toNat - 32) else c

/-- ASCII whitespace as recognised by Python `str.strip`. -/
def pySpace (c : Char) : Bool :=
  c = ' ' ∨ c = '\t' ∨ c = '\n' ∨ c = '\r' ∨ c = '\x0b' ∨ c = '\x0c'

/-- Python `str.strip` (ASCII whitespace). -/
def pyStrip (s : String) : String :=
  ⟨((s.data.dropWhile pySpace).reverse.dropWhile pySpace).reverse⟩

/-- Python `str.lower` (ASCII fragment). -/
def pyLower (s : String) : String := ⟨s.data.map pyLowerChar⟩

/-- Python `str.upper` (ASCII fragment). -/
def pyUpper (s : String) : String := ⟨s.data.map pyUpperChar⟩

/-! ## JSON values and the question bank loader -/

/-- Values produced by `json.load`. -/
inductive JValue where
  | jnull : JValue
  | jbool : Bool → JValue
  | jnum : Int → JValue
  | jstr : String → JValue
  | jarr : List JValue → JValue
  | jobj : List (String × JValue) → JValue

/-- First-match lookup in an object field list (Python `dict.get`). -/
def lookupField : List (String × JValue) → String → Option JValue
  | [], _ => none
  | (k, v) :: rest, key => if k = key then some v else lookupField rest key

/-- Python `dict.get` on a JSON object; `none` on non-objects. -/
def JValue.get : JValue → String → Option JValue
  | .jobj fields, key => lookupField fields key
  | _, _ => none

/-- Extract a JSON string, `none` for any other value. -/
def asStr : JValue → Option String
  | .jstr s => some s
  | _ => none

/-- Python `all(isinstance(x, str) for x in xs)` plus extraction. -/
def allStrings : List JValue → Option (List String)
  | [] => some []
  | v :: rest =>
    match asStr v with
    | some s =>
      match allStrings rest with
      | some ss => some (s :: ss)
      | none => none
    | none => none

/-- The question record produced by a successful load; `answer` is stored
uppercased as the source mutates `q["answer"] = ans.upper()`. -/
structure Question where
  question : String
  options : List String
  answer : String
  hint : Option String
  explanation : Option String
  quick_replies : Option (List String)
deriving DecidableEq

instance : Inhabited Question := ⟨⟨"", [], "", none, none, none⟩⟩

/-- `["A", "B", "C", "D"][: len(opts)]` from the source. -/
def allowedLetters (n : Nat) : List String := ["A", "B", "C", "D"].take n

/-- The quick-replies filtering loop of the source: uppercase and strip
each entry, keep it only when it is an allowed letter not seen before. -/
def qrNorm (allowed : List String) (xs : List String) : List String :=
  xs.foldl
    (fun acc x =>
      let u := pyStrip (pyUpper x)
      if u ∈ allowed ∧ u ∉ acc then acc ++ [u] else acc)
    []

/-- Python f-string rendering of a list of strings, as in
`f"... within {allowed_letters}"`. -/
def pyReprStrList (xs : List String) : String :=
  "[" ++ String.intercalate ", " (xs.map (fun x => "\x27" ++ x ++ "\x27")) ++ "]"

/-- Error message for a non-object entry. -/
def objMsg (i : Nat) : String := "Question " ++ toString i ++ ": must be an object"

/-- Error message for a bad `question` field. -/
def questionMsg (i : Nat) : String :=
  "Question " ++ toString i ++ ": \x27question\x27 must be a string"

/-- Error message for a bad `options` field. -/
def optionsMsg (i : Nat) : String :=
  "Question " ++ toString i ++ ": \x27options\x27 must be a list of 2..4 strings"

/-- Error message for a bad `answer` field. -/
def answerMsg (i : Nat) (allowed : List String) : String :=
  "Question " ++ toString i ++ ": \x27answer\x27 must be one of " ++
    String.intercalate ", " allowed

/-- Error message for a non-list-of-strings `quick_replies` field. -/
def quickRepliesListMsg (i : Nat) : String :=
  "Question " ++ toString i ++ ": \x27quick_replies\x27 must be a list of strings if present"

/-- Error message for an out-of-range filtered `quick_replies` set. -/
def quickRepliesRangeMsg (i : Nat) (allowed : List String) : String :=
  "Question " ++ toString i ++
    ": \x27quick_replies\x27 must contain 1..3 unique letters within " ++
    pyReprStrList allowed

/-- Error message for a bad optional string field (`hint`/`explanation`). -/
def optFieldMsg (i : Nat) (key : String) : String :=
  "Question " ++ toString i ++ ": \x27" ++ key ++ "\x27 must be a string if present"

/-- `isinstance(q, dict)` check of the source. -/
def checkObj (i : Nat) (v : JValue) : Except String Unit :=
  match v with
  | .jobj _ => .ok ()
  | _ => .error (objMsg i)

/-- `isinstance(q.get("question"), str)` check of the source. -/
def checkQuestion (i : Nat) (v : JValue) : Except String String :=
  match v.get "question" with
  | some (.jstr s) => .ok s
  | _ => .error (questionMsg i)

/-- The combined `options` check of the source: a list of 2..4 strings. -/
def checkOptions (i : Nat) (v : JValue) : Except String (List String) :=
  match v.get "options" with
  | some (.jarr xs) =>
    match allStrings xs with
    | some opts =>
      if 2 ≤ opts.length ∧ opts.length ≤ 4 then .ok opts else .error (optionsMsg i)
    | none => .error (optionsMsg i)
  | _ => .error (optionsMsg i)

/-- The `answer` check of the source: a string whose uppercase form is an
allowed letter. -/
def checkAnswer (i : Nat) (allowed : List String) (v : JValue) : Except String String :=
  match v.get "answer" with
  | some (.jstr ans) =>
    if pyUpper ans ∈ allowed then .ok ans else .error (answerMsg i allowed)
  | _ => .error (answerMsg i allowed)

/-- The `quick_replies` check of the source: skipped when absent or JSON
null (`qr is not None`), otherwise a list of strings filtered by
`qrNorm` whose final size must be 1..3. -/
def checkQuickReplies (i : Nat) (allowed : List String) (v : JValue) :
    Except String (Option (List String)) :=
  match v.get "quick_replies" with
  | none => .ok none
  | some .jnull => .ok none
  | some (.jarr xs) =>
    match allStrings xs with
    | some strs =>
      if (qrNorm allowed strs).length = 0 ∨ 3 < (qrNorm allowed strs).length then
        .error (quickRepliesRangeMsg i allowed)
      else .ok (some (qrNorm allowed strs))
    | none => .error (quickRepliesListMsg i)
  | some _ => .error (quickRepliesListMsg i)

/-- The `hint`/`explanation` check of the source: when the key is present
its value must be a string. -/
def checkOptField (i : Nat) (v : JValue) (key : String) : Except String (Option String) :=
  match v.get key with
  | none => .ok none
  | some (.jstr s) => .ok (some s)
  | some _ => .error (optFieldMsg i key)

/-- Validation of one entry, in the exact check order of the source loop
(src/app.py lines 52-84); the first failing check raises. -/
def validateEntry (i : Nat) (v : JValue) : Except String Question :=
  match checkObj i v with
  | .error e => .error e
  | .ok _ =>
    match checkQuestion i v with
    | .error e => .error e
    | .ok qt =>
      match checkOptions i v with
      | .error e => .error e
      | .ok opts =>
        match checkAnswer i (allowedLetters opts.length) v with
        | .error e => .error e
        | .ok ans =>
          match checkQuickReplies i (allowedLetters opts.length) v with
          | .error e => .error e
          | .ok qr =>
            match checkOptField i v "hint" with
            | .error e => .error e
            | .ok hint =>
              match checkOptField i v "explanation" with
              | .error e => .error e
              | .ok expl => .ok ⟨qt, opts, pyUpper ans, hint, expl, qr⟩

/-- Sequential validation of all entries with 1-based indices; the first
failing entry aborts the load. -/
def validateAll : Nat → List JValue → Except String (List Question)
  | _, [] => .ok []
  | i, v :: rest =>
    match validateEntry i v with
    | .error e => .error e
    | .ok q =>
      match validateAll (i + 1) rest with
      | .error e => .error e
      | .ok qs => .ok (q :: qs)

/-- `load_questions` (src/app.py lines 34-86): the data must be a
non-empty JSON list and every entry must validate. -/
def load_questions (data : JValue) : Except String (List Question) :=
  match data with
  | .jarr items =>
    if items.isEmpty then .error "questions.json must be a non-empty list of questions"
    else validateAll 1 items
  | _ => .error "questions.json must be a non-empty list of questions"

/-! ## Answer normalization -/

/-- Core of `normalize_answer` on the character list of the stripped,
lowercased input (src/app.py lines 115-135). -/
def normAux (cs : List Char) : Option String :=
  if cs = ['1'] then some "A"
  else if cs = ['2'] then some "B"
  else if cs = ['3'] then some "C"
  else if cs = ['4'] then some "D"
  else
    match cs with
    | [] => none
    | c :: rest =>
      if c = 'a' ∨ c = 'b' ∨ c = 'c' ∨ c = 'd' then
        match rest with
        | [] => some ⟨[pyUpperChar c]⟩
        | d :: _ =>
          if d = ')' ∨ d = '.' ∨ d = ':' ∨ d = '-' ∨ d = ' ' then
            some ⟨[pyUpperChar c]⟩
          else none
      else none

/-- `normalize_answer` (src/app.py lines 115-135). -/
def normalize_answer (text : String) : Option String :=
  if text = "" then none
  else normAux (pyLower (pyStrip text)).data

/-! ## Sessions, events and replies -/

/-- One in-memory session: `{ "index": ..., "score": ... }`. -/
structure Session where
  index : Nat
  score : Nat
deriving DecidableEq

/-- The in-memory session store keyed by the sender number. -/
abbrev Store := String → Option Session

/-- The store at process start. -/
def emptyStore : Store := fun _ => none

/-- `sessions[from_number] = s`. -/
def setSession (store : Store) (id : String) (s : Session) : Store :=
  fun j => if j = id then some s else store j

/-- `sessions.pop(from_number, None)`. -/
def popSession (store : Store) (id : String) : Store :=
  fun j => if j = id then none else store j

/-- One inbound webhook request: `From`, `Body` and the
`ButtonPayload`/`buttonPayload` form field when present. -/
structure InboundEvent where
  fromNumber : String
  body : String
  buttonPayload : Option String

/-- `raw_answer = (button_payload or body)` with Python string
truthiness. -/
def rawAnswer (buttonPayload : Option String) (body : String) : String :=
  match buttonPayload with
  | some p => if p = "" then body else p
  | none => body

/-- Python truthiness on an optional string: an absent or empty string is
falsy (`hint if hint else ...`, `if expl else ""`). -/
def truthyOpt (o : Option String) : Option String :=
  match o with
  | some s => if s = "" then none else some s
  | none => none

/-- The qualitative band of the completion summary. -/
inductive ScoreBand where
  | top
  | second
  | third
  | lowest
deriving DecidableEq

/-- Round half to even on exact rationals (Python `round`). -/
def roundHalfEven (q : ℚ) : ℤ :=
  if q - ⌊q⌋ < 1 / 2 then ⌊q⌋
  else if 1 / 2 < q - ⌊q⌋ then ⌊q⌋ + 1
  else if ⌊q⌋ % 2 = 0 then ⌊q⌋ else ⌊q⌋ + 1

/-- `pct = round((score / total) * 100)` (src/app.py line 217). -/
def pct (score total : Nat) : ℤ :=
  roundHalfEven ((score : ℚ) / (total : ℚ) * 100)

/-- The `fun` message selection of the source (lines 218-225). -/
def scoreBand (p : ℤ) : ScoreBand :=
  if p = 100 then .top
  else if 80 ≤ p then .second
  else if 50 ≤ p then .third
  else .lowest

/-- The reply of one webhook call, one constructor per return site of the
source handler, carrying the data the source embeds in the message. -/
inductive Reply where
  | welcomeAndQuestion : Nat → Nat → Reply
  | helpText : Reply
  | hintText : String → Reply
  | noHint : Reply
  | startPrompt : Reply
  | reprompt : Reply
  | feedbackAndQuestion : Bool → String → Option String → Nat → Reply
  | feedbackAndSummary : Bool → String → Option String → Nat → Nat → ℤ → ScoreBand → Reply
deriving DecidableEq

/-! ## The webhook handler -/

/-- Grading of a successfully normalized answer (src/app.py lines
196-239): score increment, index increment, then either the completion
summary with session removal or the next question. -/
def gradeAnswer (qs : List Question) (store : Store) (pid : String)
    (st : Session) (norm : String) : Store × Reply :=
  let q := qs.getD st.index default
  let isCorrect := norm == q.answer
  let score1 := if isCorrect then st.score + 1 else st.score
  let index1 := st.index + 1
  if qs.length ≤ index1 then
    (popSession store pid,
      .feedbackAndSummary isCorrect q.answer (truthyOpt q.explanation) score1 qs.length
        (pct score1 qs.length) (scoreBand (pct score1 qs.length)))
  else
    (setSession store pid ⟨index1, score1⟩,
      .feedbackAndQuestion isCorrect q.answer (truthyOpt q.explanation) index1)

/-- The `hint` command (src/app.py lines 177-183). -/
def handleHint (qs : List Question) (store : Store) (pid : String) : Store × Reply :=
  match store pid with
  | none => (store, .startPrompt)
  | some st =>
    match truthyOpt (qs.getD st.index default).hint with
    | some h => (store, .hintText h)
    | none => (store, .noHint)

/-- The answer path (src/app.py lines 185-239): require a session,
normalize `(button_payload or body)`, then grade. -/
def handleAnswer (qs : List Question) (store : Store) (pid : String)
    (payload : Option String) (body : String) : Store × Reply :=
  match store pid with
  | none => (store, .startPrompt)
  | some st =>
    match normalize_answer (rawAnswer payload body) with
    | none => (store, .reprompt)
    | some norm => gradeAnswer qs store pid st norm

/-- The lowercased bodies recognized as commands by the handler. -/
def commandWords : List String := ["start", "restart", "help", "?", "hint"]

/-- The `/whatsapp` handler (src/app.py lines 152-239) as a step function
on the session store. -/
def whatsapp (qs : List Question) (store : Store) (ev : InboundEvent) : Store × Reply :=
  if pyLower (pyStrip ev.body) = "start" ∨ pyLower (pyStrip ev.body) = "restart" then
    (setSession store ev.fromNumber ⟨0, 0⟩, .welcomeAndQuestion qs.length 0)
  else if pyLower (pyStrip ev.body) = "help" ∨ pyLower (pyStrip ev.body) = "?" then
    (store, .helpText)
  else if pyLower (pyStrip ev.body) = "hint" then
    handleHint qs store ev.fromNumber
  else
    handleAnswer qs store ev.fromNumber ev.buttonPayload (pyStrip ev.body)

/-- Processing a list of inbound events starting from the empty store. -/
def runEvents (qs : List Question) (evs : List InboundEvent) : Store :=
  evs.foldl (fun st ev => (whatsapp qs st ev).1) emptyStore

/-- The session-store invariant of the spec: every stored session has
`score ≤ index ≤ total`. -/
def SessionInv (qs : List Question) (store : Store) : Prop :=
  ∀ id s, store id = some s → s.score ≤ s.index ∧ s.index ≤ qs.length

/-! ## Helper lemmas -/

theorem allStrings_map_jstr (xs : List String) :
    allStrings (xs.map JValue.jstr) = some xs := by
  induction xs with
  | nil => rfl
  | cons x xs ih => simp [allStrings, asStr, ih]

theorem whatsapp_answer_eq (qs : List Question) (store : Store) (ev : InboundEvent)
    (hcmd : pyLower (pyStrip ev.body) ∉ commandWords) :
    whatsapp qs store ev = handleAnswer qs store ev.fromNumber ev.buttonPayload (pyStrip ev.body) := by
  simp only [commandWords, List.mem_cons, List.not_mem_nil, or_false, not_or] at hcmd
  obtain ⟨h1, h2, h3, h4, h5⟩ := hcmd
  unfold whatsapp
  rw [if_neg (by tauto), if_neg (by tauto), if_neg h5]

theorem sessionInv_step (qs : List Question) (store : Store) (ev : InboundEvent)
    (h : SessionInv qs store) : SessionInv qs (whatsapp qs store ev).1 := by
  unfold whatsapp
  split_ifs with h1 h2 h3
  · intro id s hs
    simp only [setSession] at hs
    split at hs
    · cases hs
      exact ⟨Nat.le_refl 0, Nat.zero_le _⟩
    · exact h id s hs
  · exact h
  · unfold handleHint
    split
    · exact h
    · split
      · exact h
      · exact h
  · unfold handleAnswer
    split
    · exact h
    · rename_i st hst
      split
      · exact h
      · simp only [gradeAnswer]
        by_cases hlen : qs.length ≤ st.index + 1
        · rw [if_pos hlen]
          intro id s hs
          simp only [popSession] at hs
          split at hs
          · cases hs
          · exact h id s hs
        · rw [if_neg hlen]
          intro id s hs
          simp only [setSession] at hs
          split at hs
          · cases hs
            have hinv := h ev.fromNumber st hst
            constructor
            · show (if _ then st.score + 1 else st.score) ≤ st.index + 1
              split_ifs with hc
              · exact Nat.succ_le_succ hinv.1
              · exact Nat.le_succ_of_le hinv.1
            · show st.index + 1 ≤ qs.length
              omega
          · exact h id s hs

theorem roundHalfEven_le (q : ℚ) (m : ℤ) (h : q ≤ m) : roundHalfEven q ≤ m := by
  have hf : ⌊q⌋ ≤ m := by
    have := Int.floor_le_floor h
    simpa using this
  unfold roundHalfEven
  split_ifs with h1 h2 h3
  · exact hf
  · have hq : (⌊q⌋ : ℚ) + 1 / 2 ≤ q := by
      have := Int.floor_le q
      linarith
    have hlt : (⌊q⌋ : ℚ) < (m : ℚ) := by linarith
    have : ⌊q⌋ < m := by exact_mod_cast hlt
    omega
  · exact hf
  · have hq : (⌊q⌋ : ℚ) + 1 / 2 ≤ q := by
      push_neg at h1
      linarith
    have hlt : (⌊q⌋ : ℚ) < (m : ℚ) := by linarith
    have : ⌊q⌋ < m := by exact_mod_cast hlt
    omega

theorem pct_le_100 (s n : Nat) (h1 : 1 ≤ n) (h2 : s ≤ n) : pct s n ≤ 100 := by
  apply roundHalfEven_le
  have hn : (0 : ℚ) < (n : ℚ) := by exact_mod_cast h1
  rw [div_mul_eq_mul_div, div_le_iff₀ hn]
  push_cast
  have : (s : ℚ) ≤ (n : ℚ) := by exact_mod_cast h2
  nlinarith

theorem pct_2_3 : pct 2 3 = 67 := by
  norm_num [pct, roundHalfEven, Int.floor_eq_iff]

theorem validateAll_error_of_entry (items : List JValue) (start k : Nat) (v : JValue)
    (hk : items.get? k = some v) (he : ∃ m, validateEntry (start + k) v = .error m) :
    ∃ m, validateAll start items = .error m := by
  induction items generalizing start k with
  | nil => simp at hk
  | cons hd tl ih =>
    cases k with
    | zero =>
      simp only [List.get?] at hk
      cases hk
      obtain ⟨m, hm⟩ := he
      rw [Nat.add_zero] at hm
      exact ⟨m, by simp [validateAll, hm]⟩
    | succ k =>
      simp only [List.get?] at hk
      rcases hve : validateEntry start hd with e | q
      · exact ⟨e, by simp [validateAll, hve]⟩
      · have he' : ∃ m, validateEntry (start + 1 + k) v = .error m := by
          obtain ⟨m, hm⟩ := he
          refine ⟨m, ?_⟩
          have : start + 1 + k = start + (k + 1) := by omega
          rw [this]
          exact hm
        obtain ⟨m, hm⟩ := ih (start + 1) k hk he'
        exact ⟨m, by simp [validateAll, hve, hm]⟩

theorem handleAnswer_no_session (qs : List Question) (store : Store) (pid : String)
    (payload : Option String) (body : String) (h : store pid = none) :
    handleAnswer qs store pid payload body = (store, .startPrompt) := by
  unfold handleAnswer
  rw [h]

theorem handleAnswer_bad_input (qs : List Question) (store : Store) (pid : String)
    (payload : Option String) (body : String) (st : Session) (h : store pid = some st)
    (hn : normalize_answer (rawAnswer payload body) = none) :
    handleAnswer qs store pid payload body = (store, .reprompt) := by
  unfold handleAnswer
  rw [h, hn]

theorem handleAnswer_graded (qs : List Question) (store : Store) (pid : String)
    (payload : Option String) (body : String) (st : Session) (norm : String)
    (h : store pid = some st)
    (hn : normalize_answer (rawAnswer payload body) = some norm) :
    handleAnswer qs store pid payload body = gradeAnswer qs store pid st norm := by
  unfold handleAnswer
  rw [h, hn]

theorem gradeAnswer_last (qs : List Question) (store : Store) (pid : String)
    (st : Session) (norm : String) (hlast : qs.length ≤ st.index + 1) :
    gradeAnswer qs store pid st norm =
      (popSession store pid,
        Reply.feedbackAndSummary (norm == (qs.getD st.index default).answer)
          (qs.getD st.index default).answer
          (truthyOpt (qs.getD st.index default).explanation)
          (if norm == (qs.getD st.index default).answer then st.score + 1 else st.score)
          qs.length
          (pct (if norm == (qs.getD st.index default).answer then st.score + 1 else st.score) qs.length)
          (scoreBand (pct (if norm == (qs.getD st.index default).answer then st.score + 1 else st.score) qs.length))) := by
  simp only [gradeAnswer]
  rw [if_pos hlast]

theorem gradeAnswer_wrong_mid (qs : List Question) (store : Store) (pid : String)
    (st : Session) (q : Question) (norm : String) (hq : qs.get? st.index = some q)
    (hne : norm ≠ q.answer) (hmid : st.index + 1 < qs.length) :
    gradeAnswer qs store pid st norm =
      (setSession store pid ⟨st.index + 1, st.score⟩,
        Reply.feedbackAndQuestion false q.answer (truthyOpt q.explanation) (st.index + 1)) := by
  have hgd : qs[st.index]?.getD default = q := by
    rw [← List.get?_eq_getElem?, hq]
    rfl
  have hbeq : (norm == q.answer) = false := beq_eq_false_iff_ne.mpr hne
  have hlen : ¬ qs.length ≤ st.index + 1 := by omega
  simp [gradeAnswer, hgd, hbeq, hlen, hne]

/-! ## Concrete fixtures used in witnesses and counterexamples -/

/-- A two-option question with answer A. -/
def qFixA : Question := ⟨"q1", ["x", "y"], "A", none, none, none⟩

/-- A one-question bank. -/
def qsOne : List Question := [qFixA]

/-- A two-question bank whose first question has three options. -/
def qsTwo : List Question :=
  [⟨"q1", ["x", "y", "z"], "A", none, none, none⟩,
   ⟨"q2", ["x", "y"], "A", none, none, none⟩]

/-- A store holding one session at index 0, score 0 for participant "u". -/
def storeU00 : Store := setSession emptyStore "u" ⟨0, 0⟩

/-- Inbound "4" from "u". -/
def evDigit4 : InboundEvent := ⟨"u", "4", none⟩

/-- Inbound "start" from "u". -/
def evStart : InboundEvent := ⟨"u", "start", none⟩

/-- Inbound "restart" from "u". -/
def evRestart : InboundEvent := ⟨"u", "restart", none⟩

/-- Inbound "a" from "u". -/
def evLetterA : InboundEvent := ⟨"u", "a", none⟩

/-- Inbound unparseable text from "u". -/
def evGarbage : InboundEvent := ⟨"u", "zzz", none⟩

/-! ## Claims -/

/-- C1, counterexample: with a three-option current question, the inbound
digit "4" is not rejected: the session of "u" moves from (0,0) to (1,0)
and the reply is graded feedback, not the re-prompt guidance. -/
theorem c1_counterexample :
    (whatsapp qsTwo storeU00 evDigit4).1 "u" = some ⟨1, 0⟩ ∧
    (whatsapp qsTwo storeU00 evDigit4).1 "u" ≠ some ⟨0, 0⟩ ∧
    (whatsapp qsTwo storeU00 evDigit4).2 = Reply.feedbackAndQuestion false "A" none 1 ∧
    (whatsapp qsTwo storeU00 evDigit4).2 ≠ Reply.reprompt := by
  decide

/-- C1 (amended): a digit beyond the current question's option count is
not rejected: `normalize_answer` maps it through the fixed 4-slot digit
map, and the handler grades the mapped letter as an ordinary (necessarily
incorrect) answer: the score is unchanged, the index advances by one, and
graded feedback is emitted instead of guidance. -/
theorem c1_out_of_range_digit_graded (qs : List Question) (store : Store)
    (ev : InboundEvent) (st : Session) (q : Question) (d L : String)
    (hdL : (d, L) ∈ ([("1", "A"), ("2", "B"), ("3", "C"), ("4", "D")] : List (String × String)))
    (hbody : pyStrip ev.body = d)
    (hpay : ev.buttonPayload = none)
    (hst : store ev.fromNumber = some st)
    (hq : qs.get? st.index = some q)
    (hout : L ∉ allowedLetters q.options.length)
    (hans : q.answer ∈ allowedLetters q.options.length)
    (hmid : st.index + 1 < qs.length) :
    whatsapp qs store ev =
      (setSession store ev.fromNumber ⟨st.index + 1, st.score⟩,
        Reply.feedbackAndQuestion false q.answer (truthyOpt q.explanation) (st.index + 1)) := by
  simp only [List.mem_cons, List.not_mem_nil, or_false, Prod.mk.injEq] at hdL
  have hLa : L ≠ q.answer := fun hEq => hout (hEq ▸ hans)
  rcases hdL with ⟨rfl, rfl⟩ | ⟨rfl, rfl⟩ | ⟨rfl, rfl⟩ | ⟨rfl, rfl⟩
  · rw [whatsapp_answer_eq qs store ev (by rw [hbody]; decide),
      handleAnswer_graded qs store ev.fromNumber ev.buttonPayload (pyStrip ev.body) st "A"
        hst (by rw [hpay, hbody]; decide)]
    exact gradeAnswer_wrong_mid qs store ev.fromNumber st q "A" hq hLa hmid
  · rw [whatsapp_answer_eq qs store ev (by rw [hbody]; decide),
      handleAnswer_graded qs store ev.fromNumber ev.buttonPayload (pyStrip ev.body) st "B"
        hst (by rw [hpay, hbody]; decide)]
    exact gradeAnswer_wrong_mid qs store ev.fromNumber st q "B" hq hLa hmid
  · rw [whatsapp_answer_eq qs store ev (by rw [hbody]; decide),
      handleAnswer_graded qs store ev.fromNumber ev.buttonPayload (pyStrip ev.body) st "C"
        hst (by rw [hpay, hbody]; decide)]
    exact gradeAnswer_wrong_mid qs store ev.fromNumber st q "C" hq hLa hmid
  · rw [whatsapp_answer_eq qs store ev (by rw [hbody]; decide),
      handleAnswer_graded qs store ev.fromNumber ev.buttonPayload (pyStrip ev.body) st "D"
        hst (by rw [hpay, hbody]; decide)]
    exact gradeAnswer_wrong_mid qs store ev.fromNumber st q "D" hq hLa hmid

/-- Witness for C1 (amended), at the concrete counterexample scenario. -/
theorem c1_out_of_range_digit_graded_witness :
    whatsapp qsTwo storeU00 evDigit4 =
      (setSession storeU00 "u" ⟨1, 0⟩, Reply.feedbackAndQuestion false "A" none 1) :=
  c1_out_of_range_digit_graded qsTwo storeU00 evDigit4 ⟨0, 0⟩
    ⟨"q1", ["x", "y", "z"], "A", none, none, none⟩ "4" "D"
    (by decide) (by decide) rfl (by decide) (by decide) (by decide) (by decide) (by decide)

/-- C2, counterexample: "AX" starts with the verbatim uppercase letter A,
valid for every option count, yet `normalize_answer` rejects it rather
than returning "A" regardless of what follows. -/
theorem c2_counterexample :
    normalize_answer "AX" = none ∧
    normalize_answer "AX" ≠ some "A" ∧
    "A" ∈ allowedLetters 2 := by
  decide

/-- C2 (amended): the parser lowercases the stripped input first, so the
fast path is case-insensitive rather than verbatim, and it requires the
letter to be the whole input or to be followed by one of the separators
`)`, `.`, `:`, `-`, space; when the lowercased first character is a-d and
the second is such a separator, the uppercased letter is returned
regardless of the remaining characters, with no dependence on the
question's option count. -/
theorem c2_first_letter_normalizes (text : String) (c d : Char) (rest : List Char)
    (h : (pyLower (pyStrip text)).data = c :: d :: rest)
    (hc : c = 'a' ∨ c = 'b' ∨ c = 'c' ∨ c = 'd')
    (hd : d = ')' ∨ d = '.' ∨ d = ':' ∨ d = '-' ∨ d = ' ') :
    normalize_answer text = some ⟨[pyUpperChar c]⟩ := by
  have ht : text ≠ "" := by
    intro he
    subst he
    have hnil : (pyLower (pyStrip "")).data = [] := rfl
    rw [hnil] at h
    cases h
  unfold normalize_answer
  rw [if_neg ht, h]
  rcases hc with rfl | rfl | rfl | rfl <;> rcases hd with rfl | rfl | rfl | rfl | rfl <;>
    simp [normAux]

/-- Witness for C2 (amended), at the button payload of the spec example. -/
theorem c2_first_letter_normalizes_witness :
    (pyLower (pyStrip "A) Vanda Miss Joaquim")).data = 'a' :: ')' :: " vanda miss joaquim".data ∧
    normalize_answer "A) Vanda Miss Joaquim" = some "A" :=
  ⟨by decide,
    c2_first_letter_normalizes "A) Vanda Miss Joaquim" 'a' ')' " vanda miss joaquim".data
      (by decide) (by decide) (by decide)⟩

theorem sessionInv_foldl (qs : List Question) (evs : List InboundEvent) :
    ∀ store : Store, SessionInv qs store →
      SessionInv qs (evs.foldl (fun st ev => (whatsapp qs st ev).1) store) := by
  induction evs with
  | nil => intro store hs; exact hs
  | cons e es ih =>
    intro store hs
    exact ih ((whatsapp qs store e).1) (sessionInv_step qs store e hs)

/-- C3: every session reachable from the initial empty store by any
sequence of inbound events satisfies 0 ≤ score ≤ index ≤ total. -/
theorem c3_store_invariant (qs : List Question) (evs : List InboundEvent)
    (id : String) (s : Session) (h : runEvents qs evs id = some s) :
    0 ≤ s.score ∧ s.score ≤ s.index ∧ s.index ≤ qs.length := by
  have hrun : SessionInv qs (runEvents qs evs) := by
    unfold runEvents
    exact sessionInv_foldl qs evs emptyStore (fun id s hs => by simp [emptyStore] at hs)
  obtain ⟨h1, h2⟩ := hrun id s h
  exact ⟨Nat.zero_le _, h1, h2⟩

/-- Witness for C3: the store after a single start event. -/
theorem c3_store_invariant_witness :
    runEvents qsOne [evStart] "u" = some ⟨0, 0⟩ ∧
    (0 ≤ (Session.mk 0 0).score ∧ (Session.mk 0 0).score ≤ (Session.mk 0 0).index ∧
      (Session.mk 0 0).index ≤ qsOne.length) :=
  ⟨by decide, c3_store_invariant qsOne [evStart] "u" ⟨0, 0⟩ (by decide)⟩

/-- C4: a session at the last question index that receives a successfully
normalized answer gets feedback plus a completion summary in one reply,
and the session is removed unconditionally, so the participant no longer
has a session afterwards. -/
theorem c4_final_answer_completes (qs : List Question) (store : Store)
    (ev : InboundEvent) (st : Session) (L : String)
    (hcmd : pyLower (pyStrip ev.body) ∉ commandWords)
    (hst : store ev.fromNumber = some st)
    (hnorm : normalize_answer (rawAnswer ev.buttonPayload (pyStrip ev.body)) = some L)
    (hlast : st.index + 1 = qs.length) :
    (whatsapp qs store ev).1 ev.fromNumber = none ∧
    ∃ correct expl score p band, (whatsapp qs store ev).2 =
      Reply.feedbackAndSummary correct (qs.getD st.index default).answer expl score
        qs.length p band := by
  rw [whatsapp_answer_eq qs store ev hcmd,
    handleAnswer_graded qs store ev.fromNumber ev.buttonPayload (pyStrip ev.body) st L hst hnorm,
    gradeAnswer_last qs store ev.fromNumber st L (by omega)]
  constructor
  · simp [popSession]
  · exact ⟨_, _, _, _, _, rfl⟩

/-- Witness for C4: answering "a" on the single question of a one-question
bank removes the session and yields a summary reply. -/
theorem c4_final_answer_completes_witness :
    (whatsapp qsOne storeU00 evLetterA).1 "u" = none ∧
    ∃ correct expl score p band, (whatsapp qsOne storeU00 evLetterA).2 =
      Reply.feedbackAndSummary correct (qsOne.getD 0 default).answer expl score
        qsOne.length p band :=
  c4_final_answer_completes qsOne storeU00 evLetterA ⟨0, 0⟩ "A"
    (by decide) (by decide) (by decide) (by decide)

/-- C5: an answer event (not a command) from a participant with no session
yields the start prompt, and one whose text fails to normalize yields the
re-prompt; in both cases the returned store is exactly the input store. -/
theorem c5_guidance_leaves_store_unchanged (qs : List Question) (store : Store)
    (ev : InboundEvent) (hcmd : pyLower (pyStrip ev.body) ∉ commandWords) :
    (store ev.fromNumber = none →
      whatsapp qs store ev = (store, Reply.startPrompt)) ∧
    (∀ st, store ev.fromNumber = some st →
      normalize_answer (rawAnswer ev.buttonPayload (pyStrip ev.body)) = none →
      whatsapp qs store ev = (store, Reply.reprompt)) := by
  constructor
  · intro hnone
    rw [whatsapp_answer_eq qs store ev hcmd]
    exact handleAnswer_no_session qs store ev.fromNumber ev.buttonPayload (pyStrip ev.body) hnone
  · intro st hst hn
    rw [whatsapp_answer_eq qs store ev hcmd]
    exact handleAnswer_bad_input qs store ev.fromNumber ev.buttonPayload (pyStrip ev.body) st hst hn

/-- Witness for C5: "zzz" with no session gives the start prompt and the
same store; "zzz" with a session gives the re-prompt and the same store. -/
theorem c5_guidance_leaves_store_unchanged_witness :
    whatsapp qsOne emptyStore evGarbage = (emptyStore, Reply.startPrompt) ∧
    whatsapp qsOne storeU00 evGarbage = (storeU00, Reply.reprompt) :=
  ⟨(c5_guidance_leaves_store_unchanged qsOne emptyStore evGarbage (by decide)).1 rfl,
    (c5_guidance_leaves_store_unchanged qsOne storeU00 evGarbage (by decide)).2
      ⟨0, 0⟩ (by decide) (by decide)⟩

/-- C8: a start/restart event overwrites the sender's session with
(index 0, score 0), and issuing it again right away changes nothing:
the second call returns exactly the same store and reply. -/
theorem c8_restart_resets_and_idempotent (qs : List Question) (store : Store)
    (ev : InboundEvent)
    (h : pyLower (pyStrip ev.body) = "start" ∨ pyLower (pyStrip ev.body) = "restart") :
    (whatsapp qs store ev).1 ev.fromNumber = some ⟨0, 0⟩ ∧
    whatsapp qs (whatsapp qs store ev).1 ev = whatsapp qs store ev := by
  have hstep : ∀ s : Store, whatsapp qs s ev =
      (setSession s ev.fromNumber ⟨0, 0⟩, Reply.welcomeAndQuestion qs.length 0) := by
    intro s
    unfold whatsapp
    rw [if_pos h]
  constructor
  · rw [hstep]
    simp [setSession]
  · rw [hstep store, hstep (setSession store ev.fromNumber ⟨0, 0⟩)]
    have hss : setSession (setSession store ev.fromNumber ⟨0, 0⟩) ev.fromNumber ⟨0, 0⟩ =
        setSession store ev.fromNumber ⟨0, 0⟩ := by
      funext j
      by_cases hj : j = ev.fromNumber <;> simp [setSession, hj]
    rw [hss]

/-- Witness for C8 at a store with prior progress. -/
theorem c8_restart_resets_and_idempotent_witness :
    (whatsapp qsOne storeU00 evRestart).1 "u" = some ⟨0, 0⟩ ∧
    whatsapp qsOne (whatsapp qsOne storeU00 evRestart).1 evRestart =
      whatsapp qsOne storeU00 evRestart :=
  c8_restart_resets_and_idempotent qsOne storeU00 evRestart (by decide)

/-- C10: command recognition looks only at the lowercased stripped body,
so two events with the same body and different payloads are handled
identically when the body is a command; and on the answer path with a
non-empty payload, the payload is what is normalized, so the body is
irrelevant beyond not being a command. -/
theorem c10_payload_handling (qs : List Question) (store : Store)
    (f b b2 p : String) (p1 p2 : Option String) :
    (pyLower (pyStrip b) ∈ commandWords →
      whatsapp qs store ⟨f, b, p1⟩ = whatsapp qs store ⟨f, b, p2⟩) ∧
    (pyLower (pyStrip b) ∉ commandWords → pyLower (pyStrip b2) ∉ commandWords →
      p ≠ "" →
      whatsapp qs store ⟨f, b, some p⟩ = whatsapp qs store ⟨f, b2, some p⟩) := by
  constructor
  · intro hb
    simp only [commandWords, List.mem_cons, List.not_mem_nil, or_false] at hb
    rcases hb with hb | hb | hb | hb | hb <;> simp [whatsapp, hb]
  · intro h1 h2 hp
    rw [whatsapp_answer_eq qs store ⟨f, b, some p⟩ h1,
      whatsapp_answer_eq qs store ⟨f, b2, some p⟩ h2]
    show handleAnswer qs store f (some p) (pyStrip b) =
      handleAnswer qs store f (some p) (pyStrip b2)
    have hr1 : rawAnswer (some p) (pyStrip b) = p := by
      simp [rawAnswer, hp]
    have hr2 : rawAnswer (some p) (pyStrip b2) = p := by
      simp [rawAnswer, hp]
    unfold handleAnswer
    rw [hr1, hr2]

/-- Witness for C10: a payload does not affect the start command, and the
body does not affect grading when a non-empty payload is present. -/
theorem c10_payload_handling_witness :
    whatsapp qsOne storeU00 ⟨"u", "start", some "2"⟩ =
      whatsapp qsOne storeU00 ⟨"u", "start", none⟩ ∧
    whatsapp qsOne storeU00 ⟨"u", "xxx", some "2"⟩ =
      whatsapp qsOne storeU00 ⟨"u", "yyy", some "2"⟩ :=
  ⟨(c10_payload_handling qsOne storeU00 "u" "start" "irrelevant" "2" (some "2") none).1
      (by decide),
    (c10_payload_handling qsOne storeU00 "u" "xxx" "yyy" "2" none none).2
      (by decide) (by decide) (by decide)⟩

/-- C6, counterexample: an entry whose `question` field is the empty
string passes validation and the bank is served, contrary to the claim
that an empty `text` fails the load. -/
theorem c6_counterexample :
    load_questions (.jarr [.jobj [("question", .jstr ""),
        ("options", .jarr [.jstr "x", .jstr "y"]), ("answer", .jstr "a")]]) =
      Except.ok [⟨"", ["x", "y"], "A", none, none, none⟩] := rfl

/-- C6 (amended): an object entry whose `question` field is absent or not
a string fails validation with that entry's 1-based index in the message,
and the whole load fails, serving no bank; an empty-string `question` is
accepted. -/
theorem c6_text_validation (items : List JValue) (k : Nat)
    (fields : List (String × JValue))
    (hk : items.get? k = some (.jobj fields))
    (hq : ∀ s, lookupField fields "question" ≠ some (.jstr s)) :
    validateEntry (k + 1) (.jobj fields) = .error (questionMsg (k + 1)) ∧
    ∃ e, load_questions (.jarr items) = .error e := by
  have hve : validateEntry (k + 1) (.jobj fields) = .error (questionMsg (k + 1)) := by
    rcases hg : lookupField fields "question" with _ | val
    · simp [validateEntry, checkObj, checkQuestion, JValue.get, hg]
    · rcases val with _ | b | n | s | arr | obj
      · simp [validateEntry, checkObj, checkQuestion, JValue.get, hg]
      · simp [validateEntry, checkObj, checkQuestion, JValue.get, hg]
      · simp [validateEntry, checkObj, checkQuestion, JValue.get, hg]
      · exact absurd hg (hq s)
      · simp [validateEntry, checkObj, checkQuestion, JValue.get, hg]
      · simp [validateEntry, checkObj, checkQuestion, JValue.get, hg]
  refine ⟨hve, ?_⟩
  have hne : ∃ m, validateEntry (1 + k) (.jobj fields) = .error m := by
    refine ⟨questionMsg (k + 1), ?_⟩
    rw [Nat.add_comm 1 k]
    exact hve
  obtain ⟨m, hm⟩ := validateAll_error_of_entry items 1 k (.jobj fields) hk hne
  refine ⟨m, ?_⟩
  have hnonempty : items.isEmpty = false := by
    cases items
    · simp at hk
    · rfl
  simp [load_questions, hnonempty, hm]

/-- Witness for C6 (amended): a one-entry bank whose entry lacks a
`question` key fails with the index-1 message, and no bank is served. -/
theorem c6_text_validation_witness :
    validateEntry 1 (.jobj [("options", .jarr [.jstr "x", .jstr "y"]),
        ("answer", .jstr "a")]) = .error (questionMsg 1) ∧
    ∃ e, load_questions (.jarr [.jobj [("options", .jarr [.jstr "x", .jstr "y"]),
        ("answer", .jstr "a")]]) = .error e :=
  c6_text_validation [.jobj [("options", .jarr [.jstr "x", .jstr "y"]),
      ("answer", .jstr "a")]] 0
    [("options", .jarr [.jstr "x", .jstr "y"]), ("answer", .jstr "a")]
    rfl (fun _ h => Option.noConfusion h)

/-- C7, counterexample: a `quick_replies` list containing "Z", which does
not resolve to a valid label for a two-option question, does not make the
load fail: the invalid entry is silently dropped and the bank is served
with the remainder. -/
theorem c7_counterexample :
    load_questions (.jarr [.jobj [("question", .jstr "q"),
        ("options", .jarr [.jstr "x", .jstr "y"]), ("answer", .jstr "a"),
        ("quick_replies", .jarr [.jstr "A", .jstr "Z"])]]) =
      Except.ok [⟨"q", ["x", "y"], "A", none, none, some ["A"]⟩] := rfl

/-- C9: for a final score s out of n ≥ 1 questions with s ≤ n, the summary
percentage is the (half-to-even) rounding of s/n*100 and the band chosen
by the source's threshold chain realizes exactly the claimed partition:
100 percent gives the top band, 80..99 the second, 50..79 the third and
everything below the lowest. -/
theorem c9_summary_percentage_bands (s n : Nat) (h1 : 1 ≤ n) (h2 : s ≤ n) :
    pct s n = roundHalfEven ((s : ℚ) / (n : ℚ) * 100) ∧
    (scoreBand (pct s n) = .top ↔ pct s n = 100) ∧
    (scoreBand (pct s n) = .second ↔ 80 ≤ pct s n ∧ pct s n < 100) ∧
    (scoreBand (pct s n) = .third ↔ 50 ≤ pct s n ∧ pct s n < 80) ∧
    (scoreBand (pct s n) = .lowest ↔ pct s n < 50) := by
  have hle := pct_le_100 s n h1 h2
  refine ⟨rfl, ?_, ?_, ?_, ?_⟩ <;>
    (unfold scoreBand; split_ifs with hA hB hC) <;>
    constructor <;> intro hx <;>
    first
      | rfl
      | omega
      | (exact absurd hx (by decide))

/-- Witness for C9 at the spec's Scenario A: score 2 of 3 reports 67
percent in the third band. -/
theorem c9_summary_percentage_bands_witness :
    pct 2 3 = 67 ∧ scoreBand (pct 2 3) = ScoreBand.third ∧
    (scoreBand (pct 2 3) = ScoreBand.third ↔ 50 ≤ pct 2 3 ∧ pct 2 3 < 80) :=
  ⟨pct_2_3, by rw [pct_2_3]; decide,
    (c9_summary_percentage_bands 2 3 (by decide) (by decide)).2.2.2.1⟩

/-- C7 (amended): on a three-option entry of an otherwise valid shape,
`quick_replies` entries that do not resolve to valid labels (and
duplicates) are silently dropped by the filtering loop; the load fails
only when the filtered set is empty or larger than three, and otherwise
the entry is accepted with exactly the filtered remainder. -/
theorem c7_quick_replies_filtered (i : Nat) (qrs : List String) :
    validateEntry i (.jobj [("question", .jstr "q"),
        ("options", .jarr [.jstr "x", .jstr "y", .jstr "z"]),
        ("answer", .jstr "a"),
        ("quick_replies", .jarr (qrs.map JValue.jstr))]) =
      (if (qrNorm (allowedLetters 3) qrs).length = 0 ∨
          3 < (qrNorm (allowedLetters 3) qrs).length
       then Except.error (quickRepliesRangeMsg i (allowedLetters 3))
       else Except.ok ⟨"q", ["x", "y", "z"], "A", none, none,
         some (qrNorm (allowedLetters 3) qrs)⟩) := by
  have hqr : checkQuickReplies i (allowedLetters 3) (.jobj [("question", .jstr "q"),
        ("options", .jarr [.jstr "x", .jstr "y", .jstr "z"]),
        ("answer", .jstr "a"),
        ("quick_replies", .jarr (qrs.map JValue.jstr))]) =
      (match allStrings (qrs.map JValue.jstr) with
       | some strs =>
         if (qrNorm (allowedLetters 3) strs).length = 0 ∨
             3 < (qrNorm (allowedLetters 3) strs).length then
           .error (quickRepliesRangeMsg i (allowedLetters 3))
         else .ok (some (qrNorm (allowedLetters 3) strs))
       | none => .error (quickRepliesListMsg i)) := rfl
  rw [allStrings_map_jstr qrs] at hqr
  have hqr2 : checkQuickReplies i (allowedLetters 3) (.jobj [("question", .jstr "q"),
        ("options", .jarr [.jstr "x", .jstr "y", .jstr "z"]),
        ("answer", .jstr "a"),
        ("quick_replies", .jarr (qrs.map JValue.jstr))]) =
      (if (qrNorm (allowedLetters 3) qrs).length = 0 ∨
          3 < (qrNorm (allowedLetters 3) qrs).length then
        .error (quickRepliesRangeMsg i (allowedLetters 3))
      else .ok (some (qrNorm (allowedLetters 3) qrs))) := hqr
  have hmain : validateEntry i (.jobj [("question", .jstr "q"),
        ("options", .jarr [.jstr "x", .jstr "y", .jstr "z"]),
        ("answer", .jstr "a"),
        ("quick_replies", .jarr (qrs.map JValue.jstr))]) =
      (match checkQuickReplies i (allowedLetters 3) (.jobj [("question", .jstr "q"),
          ("options", .jarr [.jstr "x", .jstr "y", .jstr "z"]),
          ("answer", .jstr "a"),
          ("quick_replies", .jarr (qrs.map JValue.jstr))]) with
       | .error e => .error e
       | .ok qr => .ok ⟨"q", ["x", "y", "z"], pyUpper "a", none, none, qr⟩) := rfl
  rw [hmain, hqr2]
  split_ifs with hcond
  · rfl
  · rfl
